import Mathlib

/-!
# Verification of the `broken-flask` dashboard derivation pipeline

Shallow embedding of the reactive data-to-chart derivation pipeline in
`website/dash_app/dashboard.py`: the metric deriver (`get_data`), the three
chart composers (`plot_line_chart`, `update_histogram`, the three gauge
callbacks) and the callback wiring between them.

Modelling conventions:
* Prices and all derived numeric values are modelled as exact rationals `ℚ`
  (the source computes with IEEE floats; the claims under study are about the
  exact arithmetic the source expresses).
* A pandas `NaN` cell (a rolling window with insufficient history, or
  `pct_change` at index 0) is modelled as `none` in an `Option ℚ` column.
* `pandas.Series.rolling(k).mean()` / `.std()` and `pct_change()` are library
  calls; their documented semantics are embedded here (`rollingMean`,
  `rollingVariance`, `pctChange`) over the price column.
* The source's `STD_k` column holds the sample *standard deviation*, i.e. the
  square root of the sample variance.  The square root of a rational is in
  general irrational, so the embedded column `STDk` carries the sample
  variance instead; every claim settled below uses the STD column only
  through its definedness pattern (`none`/`some`) or through its being zero,
  and `√v = 0 ↔ v = 0`, `√v` is `NaN` exactly when the variance is, so the
  claims are insensitive to this representation.  The gauge-angle claims,
  which do use the numeric std value, are settled on `pointerAngle*`
  functions that take the std value itself as an argument, exactly as the
  source reads it off the last row.
* The gauge pointer angle is measured in units of π: the source computes
  `np.pi * x`; the embedding returns the coefficient `x : ℚ`, so `1` stands
  for the angle π, `1/2` for π/2 and `0` for `0`.
* A Python exception raised by a composer (missing column, `iloc[-1]` on an
  empty frame) is modelled as `Except.error` with a describing message.
-/

/-- Arithmetic mean of a list of rationals (`sum / len`; `0` on `[]`,
which never arises where it is used: rolling windows are nonempty). -/
def listMean (xs : List ℚ) : ℚ := xs.sum / (xs.length : ℚ)

/-- Sample variance of a list: `Σ (x − mean)² / (n − 1)`.  The source's
sample standard deviation (pandas `std`, `ddof = 1`) is its square root. -/
def sampleVar (xs : List ℚ) : ℚ :=
  ((xs.map (fun x => (x - listMean xs) ^ 2)).sum) / ((xs.length : ℚ) - 1)

/-- The trailing window of width `k` ending at index `i`:
`xs[i−k+1 .. i]` (clipped at the front, as pandas does). -/
def trailingWindow (k i : ℕ) (xs : List ℚ) : List ℚ :=
  (xs.take (i + 1)).drop (i + 1 - k)

/-- Embedding of `Series.rolling(k).mean()` (pandas default
`min_periods = k`): entry `i` is `NaN` (`none`) while fewer than `k`
observations exist, and the mean of the trailing `k`-window otherwise. -/
def rollingMean (k : ℕ) (xs : List ℚ) : List (Option ℚ) :=
  (List.range xs.length).map fun i =>
    if i + 1 < k then none else some (listMean (trailingWindow k i xs))

/-- Embedding of `Series.rolling(k).std()` up to squaring: entry `i` is
`NaN` (`none`) while fewer than `k` observations exist, and the sample
variance of the trailing `k`-window otherwise (the source column holds its
square root; see the header note). -/
def rollingVariance (k : ℕ) (xs : List ℚ) : List (Option ℚ) :=
  (List.range xs.length).map fun i =>
    if i + 1 < k then none else some (sampleVar (trailingWindow k i xs))

/-- Embedding of `Series.pct_change()`: entry `0` is `NaN` (`none`), entry
`i > 0` is `(price[i] − price[i−1]) / price[i−1]`. -/
def pctChange (xs : List ℚ) : List (Option ℚ) :=
  (List.range xs.length).map fun i =>
    if i = 0 then none
    else some ((xs.getD i 0 - xs.getD (i - 1) 0) / xs.getD (i - 1) 0)

/-- One cached data frame of the dashboard.  The raw load provides the
`Date` and `Price` columns; the derived columns are absent (`none` at the
outer `Option`) until `get_data` assigns them, mirroring
`data["SMA20"] = ...` creating the column on the cached frame. -/
structure Table where
  Date : List String
  Price : List ℚ
  SMA20 : Option (List (Option ℚ)) := none
  SMA50 : Option (List (Option ℚ)) := none
  SMA100 : Option (List (Option ℚ)) := none
  STD20 : Option (List (Option ℚ)) := none
  STD50 : Option (List (Option ℚ)) := none
  STD100 : Option (List (Option ℚ)) := none
  Returns : Option (List (Option ℚ)) := none
  deriving DecidableEq, Repr

/-- The column assignments of `get_data` (dashboard.py lines 123-129)
applied to one frame: writes the six rolling columns and `Returns`,
reading only the `Price` column. -/
def deriveTable (t : Table) : Table :=
  { t with
    SMA20 := some (rollingMean 20 t.Price)
    SMA50 := some (rollingMean 50 t.Price)
    SMA100 := some (rollingMean 100 t.Price)
    STD20 := some (rollingVariance 20 t.Price)
    STD50 := some (rollingVariance 50 t.Price)
    STD100 := some (rollingVariance 100 t.Price)
    Returns := some (pctChange t.Price) }

/-- The module-level `dataframes` mapping: an association of series names
to cached frames (insertion-ordered, names unique, as a Python dict). -/
abbrev Store := List (String × Table)

/-- Embedding of `get_data(selected_chart)` (dashboard.py lines 117-131):
iterates over `dataframes.items()`; on the first name match it assigns the
derived columns *on the cached frame itself* and returns its data; if no
name matches, the loop falls through and Python returns `None`.  The result
pairs the returned payload with the post-call state of the module-level
mapping (the mutation is visible because `data` aliases the cached frame). -/
def get_data : Store → String → Option Table × Store
  | [], _ => (none, [])
  | (name, t) :: rest, sel =>
      if name = sel then
        let t' := deriveTable t
        (some t', (name, t') :: rest)
      else
        let r := get_data rest sel
        (r.1, (name, t) :: r.2)

/-- Column lookup `data[c]` for the overlay names the checklist offers. -/
def Table.col (t : Table) : String → Option (List (Option ℚ))
  | "SMA20" => t.SMA20
  | "SMA50" => t.SMA50
  | "SMA100" => t.SMA100
  | "STD20" => t.STD20
  | "STD50" => t.STD50
  | "STD100" => t.STD100
  | "Returns" => t.Returns
  | _ => none

/-- A line-chart payload: the base `Date`/`Price` trace plus one scatter
trace per requested overlay column (dashboard.py lines 147-158). -/
structure LineFigure where
  x : List String
  y : List ℚ
  overlays : List (String × List (Option ℚ))
  deriving DecidableEq, Repr

/-- Collect the overlay traces `data[ma]` for the selected names; a name
whose column is absent raises a `KeyError`. -/
def overlayTraces (t : Table) : List String → Except String (List (String × List (Option ℚ)))
  | [] => .ok []
  | ma :: rest =>
      match t.col ma with
      | none => .error ("KeyError: " ++ ma)
      | some c => do
          let tl ← overlayTraces t rest
          .ok ((ma, c) :: tl)

/-- Embedding of `plot_line_chart(data, ma_selections)` (lines 147-158).
On a missing payload (`None` in the store), `pd.DataFrame.from_dict(None)`
yields an empty frame with no columns and `px.line(..., x='Date',
y='Price')` raises because the named columns do not exist; modelled as
`.error`.  On a present frame it emits the base price trace and one trace
per overlay. -/
def plot_line_chart : Option Table → List String → Except String LineFigure
  | none, _ => .error "ValueError: value of x is not the name of a column in data_frame"
  | some t, mas => do
      let ov ← overlayTraces t mas
      .ok { x := t.Date, y := t.Price, overlays := ov }

/-- A histogram payload: the frame restricted to the trailing rows, the
binning column name, the requested bin count and the title
(dashboard.py lines 168-173). -/
structure HistFigure where
  rows : Table
  xcol : String
  nbins : ℕ
  title : String
  deriving DecidableEq, Repr

/-- `DataFrame.tail(n)`: the last `n` rows of every column; the whole frame
when `n` exceeds its length.  The frame length is the length of the raw
`Date` column (all columns of a pandas frame have the frame's length). -/
def Table.tail (t : Table) (n : ℕ) : Table :=
  let cut := t.Date.length - n
  { Date := t.Date.drop cut
    Price := t.Price.drop cut
    SMA20 := t.SMA20.map (·.drop cut)
    SMA50 := t.SMA50.map (·.drop cut)
    SMA100 := t.SMA100.map (·.drop cut)
    STD20 := t.STD20.map (·.drop cut)
    STD50 := t.STD50.map (·.drop cut)
    STD100 := t.STD100.map (·.drop cut)
    Returns := t.Returns.map (·.drop cut) }

/-- Embedding of `update_histogram(data, period_selections)` (lines
168-173): takes the trailing `int(period)` rows and bins the `Returns`
column into 15 bins.  A missing payload gives an empty column-less frame,
on which `px.histogram(..., x="Returns")` raises; a present frame whose
`Returns` column was never assigned raises likewise. -/
def update_histogram : Option Table → ℕ → String → Except String HistFigure
  | none, _, _ => .error "ValueError: value of x is not the name of a column in data_frame"
  | some t, period, periodLabel =>
      let tl := t.tail period
      match tl.Returns with
      | none => .error "ValueError: value of x is not the name of a column in data_frame"
      | some _ =>
          .ok { rows := tl, xcol := "Returns", nbins := 15,
                title := "Returns over the last " ++ periodLabel ++ " periods" }

/-- The pointer-angle rule of `plot_100_gauge` (dashboard.py lines
196-205), in units of π: `min_value = sma − 2·std`, `max_value = sma +
2·std`; angle π below the band, 0 above it, and
`π·(1 − (clamp(current) − min)/(max − min))` inside it. -/
def pointerAngle100 (current sma std : ℚ) : ℚ :=
  let min_value := sma - 2 * std
  let max_value := sma + 2 * std
  if current ≤ min_value then 1
  else if max_value ≤ current then 0
  else 1 * (1 - (max min_value (min max_value current) - min_value) / (max_value - min_value))

/-- The pointer-angle rule of `plot_50_gauge` (dashboard.py lines 273-282),
in units of π. -/
def pointerAngle50 (current sma std : ℚ) : ℚ :=
  let min_value := sma - 2 * std
  let max_value := sma + 2 * std
  if current ≤ min_value then 1
  else if max_value ≤ current then 0
  else 1 * (1 - (max min_value (min max_value current) - min_value) / (max_value - min_value))

/-- The pointer-angle rule of `plot_20_gauge` (dashboard.py lines 348-357),
in units of π. -/
def pointerAngle20 (current sma std : ℚ) : ℚ :=
  let min_value := sma - 2 * std
  let max_value := sma + 2 * std
  if current ≤ min_value then 1
  else if max_value ≤ current then 0
  else 1 * (1 - (max min_value (min max_value current) - min_value) / (max_value - min_value))

/-- A gauge payload: the last-row data the figure displays plus the pointer
angle (in units of π).  `sma`/`std` are `none` when the last cell of the
column is `NaN`; the angle is `none` when the float computation yields
`NaN` (every comparison with `NaN` is false, so the `else` branch runs and
divides `NaN` by `NaN`). -/
structure GaugeFigure where
  currentValue : ℚ
  currentDate : String
  sma : Option ℚ
  std : Option ℚ
  angle : Option ℚ
  deriving DecidableEq, Repr

/-- Shared shape of the three gauge callbacks, parameterised by the column
pair they read and the angle rule they apply: `data.iloc[-1]` raises
`IndexError` on an empty or missing frame; otherwise the last row's price,
date, SMA and STD cells feed the pointer-angle rule. -/
def gaugeFigure (smaCol stdCol : Table → Option (List (Option ℚ)))
    (rule : ℚ → ℚ → ℚ → ℚ) : Option Table → Except String GaugeFigure
  | none => .error "IndexError: single positional indexer is out-of-bounds"
  | some t =>
      match t.Price.getLast?, t.Date.getLast? with
      | some cur, some date =>
          let smaLast := (smaCol t).bind List.getLast?
          let stdLast := (stdCol t).bind List.getLast?
          let ang := match smaLast, stdLast with
            | some (some s), some (some v) => some (rule cur s v)
            | _, _ => none
          .ok { currentValue := cur, currentDate := date,
                sma := smaLast.join, std := stdLast.join, angle := ang }
      | _, _ => .error "IndexError: single positional indexer is out-of-bounds"

/-- Embedding of `plot_100_gauge(data)` (dashboard.py lines 183-205). -/
def plot_100_gauge (data : Option Table) : Except String GaugeFigure :=
  gaugeFigure Table.SMA100 Table.STD100 pointerAngle100 data

/-- Embedding of `plot_50_gauge(data)` (dashboard.py lines 260-282). -/
def plot_50_gauge (data : Option Table) : Except String GaugeFigure :=
  gaugeFigure Table.SMA50 Table.STD50 pointerAngle50 data

/-- Embedding of `plot_20_gauge(data)` (dashboard.py lines 335-357). -/
def plot_20_gauge (data : Option Table) : Except String GaugeFigure :=
  gaugeFigure Table.SMA20 Table.STD20 pointerAngle20 data

/-- The user-controlled selection state: chosen series, overlay checklist
and histogram period (the dropdown supplies the period as a string; the
numeric field is its `int(...)` value). -/
structure SelectionState where
  chart : String
  overlays : List String
  period : ℕ
  periodLabel : String
  deriving DecidableEq, Repr

deriving instance DecidableEq for Except

/-- The payloads the callback graph republisher produces for one selection
state: `get_data` runs on the chart selection, and each composer consumes
exactly the inputs its `@app_dash.callback` declaration lists (line chart:
data + overlays; histogram: data + period; gauges: data only). -/
structure Payloads where
  line : Except String LineFigure
  hist : Except String HistFigure
  gauge20 : Except String GaugeFigure
  gauge50 : Except String GaugeFigure
  gauge100 : Except String GaugeFigure
  deriving DecidableEq, Repr

/-- One full recomputation pass of the callback graph from a store and a
selection state. -/
def recompute (store : Store) (s : SelectionState) : Payloads :=
  let d := (get_data store s.chart).1
  { line := plot_line_chart d s.overlays
    hist := update_histogram d s.period s.periodLabel
    gauge20 := plot_20_gauge d
    gauge50 := plot_50_gauge d
    gauge100 := plot_100_gauge d }

/-- A small concrete raw store (one cached series of two observations) used
to evaluate the pipeline on explicit inputs. -/
def rawStore : Store := [("brent-daily_csv", { Date := ["d1", "d2"], Price := [100, 110] })]

/-- A small frame that already carries a `Returns` column, used to evaluate
the histogram composer on an explicit input. -/
def smallDerived : Table :=
  { Date := ["d1", "d2", "d3"], Price := [100, 110, 90],
    Returns := some [none, some 10, some 2] }

/-- A 20-observation price list (`0, 1, …, 19`) used to evaluate the
rolling mean at the first fully populated index of a 20-window. -/
def prices20 : List ℚ := (List.range 20).map fun n => (n : ℚ)

/-- The two selection states used to evaluate the overlay-independence of
the histogram and gauge payloads: same chart and period, different overlay
sets. -/
def stateNoOverlays : SelectionState :=
  { chart := "brent-daily_csv", overlays := [], period := 100, periodLabel := "100" }

/-- Same chart and period as `stateNoOverlays`, all overlays ticked. -/
def stateAllOverlays : SelectionState :=
  { chart := "brent-daily_csv", overlays := ["SMA20", "SMA50", "SMA100"],
    period := 100, periodLabel := "100" }

/-- C10: the 20-, 50- and 100-period gauge callbacks compute the pointer
angle by one and the same rule: on equal `(current, sma, std)` read off the
last row, the three angle computations coincide. -/
theorem gauge_rules_identical (current sma std : ℚ) :
    pointerAngle20 current sma std = pointerAngle50 current sma std ∧
    pointerAngle50 current sma std = pointerAngle100 current sma std :=
  ⟨rfl, rfl⟩

/-- C9: every histogram payload the composer successfully produces requests
exactly 15 bins, whatever the data and the period. -/
theorem histogram_always_15_bins (d : Option Table) (p : ℕ) (lbl : String)
    (fig : HistFigure) (h : update_histogram d p lbl = Except.ok fig) :
    fig.nbins = 15 := by
  cases d with
  | none => exact absurd h (by simp [update_histogram])
  | some t =>
    unfold update_histogram at h
    split at h
    · exact absurd h (by simp)
    · dsimp only at h
      split at h
      · exact absurd h (by simp)
      · rw [Except.ok.injEq] at h
        subst h
        rfl

/-- Witness for C9 at a concrete frame and period. -/
theorem histogram_always_15_bins_witness :
    ({ rows := smallDerived.tail 2, xcol := "Returns", nbins := 15,
       title := "Returns over the last 2 periods" } : HistFigure).nbins = 15 :=
  histogram_always_15_bins (some smallDerived) 2 "2" _ (by decide)

/-- C7: two selection states that agree on the chart and the period (so
they differ at most in the overlay set) produce identical histogram and
gauge payloads: the overlay set is not an input to those composers. -/
theorem overlays_do_not_affect_hist_or_gauges (store : Store) (s₁ s₂ : SelectionState)
    (hchart : s₁.chart = s₂.chart) (hp : s₁.period = s₂.period)
    (hlbl : s₁.periodLabel = s₂.periodLabel) :
    (recompute store s₁).hist = (recompute store s₂).hist ∧
    (recompute store s₁).gauge20 = (recompute store s₂).gauge20 ∧
    (recompute store s₁).gauge50 = (recompute store s₂).gauge50 ∧
    (recompute store s₁).gauge100 = (recompute store s₂).gauge100 := by
  simp [recompute, hchart, hp, hlbl]

/-- Witness for C7: on the concrete store, ticking all three overlays
leaves the histogram and the three gauges unchanged. -/
theorem overlays_do_not_affect_witness :
    (recompute rawStore stateNoOverlays).hist = (recompute rawStore stateAllOverlays).hist ∧
    (recompute rawStore stateNoOverlays).gauge20 = (recompute rawStore stateAllOverlays).gauge20 ∧
    (recompute rawStore stateNoOverlays).gauge50 = (recompute rawStore stateAllOverlays).gauge50 ∧
    (recompute rawStore stateNoOverlays).gauge100 = (recompute rawStore stateAllOverlays).gauge100 :=
  overlays_do_not_affect_hist_or_gauges rawStore stateNoOverlays stateAllOverlays rfl rfl rfl

/-- Counterexample to C2: invoking the derivation on the cached store does
not leave the store unchanged — the selected cached frame acquires the
derived columns in place. -/
theorem get_data_changes_store :
    (get_data rawStore "brent-daily_csv").2 ≠ rawStore := by decide

/-- C2 (amended): the derivation is deterministic and preserves every
cached frame's name, `Date` and `Price` columns, and re-invoking it is
idempotent (the second call returns the same payload and leaves the store
fixed); but it does *not* leave the loaded mapping unchanged — it assigns
the derived columns onto the selected cached frame in place
(`get_data_changes_store`). -/
theorem get_data_preserves_raw_and_idempotent (store : Store) (sel : String) :
    ((get_data store sel).2.map fun e => (e.1, e.2.Date, e.2.Price)) =
      (store.map fun e => (e.1, e.2.Date, e.2.Price)) ∧
    get_data (get_data store sel).2 sel = get_data store sel := by
  induction store with
  | nil => exact ⟨rfl, rfl⟩
  | cons e rest ih =>
    obtain ⟨name, t⟩ := e
    by_cases h : name = sel
    · refine ⟨?_, ?_⟩ <;> simp [get_data, h, deriveTable]
    · refine ⟨?_, ?_⟩
      · simp [get_data, h, ih.1]
      · simp [get_data, h, ih.2]

/-- C6: the `Returns` column is `NaN` at index 0 and equals
`price[i]/price[i−1] − 1` at every later index (with the previous price
nonzero, as division demands). -/
theorem returns_column_spec (xs : List ℚ) (i : ℕ) (hi : i < xs.length) :
    (i = 0 → (pctChange xs)[i]? = some none) ∧
    (0 < i → xs.getD (i - 1) 0 ≠ 0 →
      (pctChange xs)[i]? = some (some (xs.getD i 0 / xs.getD (i - 1) 0 - 1))) := by
  have hbase : (pctChange xs)[i]? =
      some (if i = 0 then none
            else some ((xs.getD i 0 - xs.getD (i - 1) 0) / xs.getD (i - 1) 0)) := by
    unfold pctChange
    rw [List.getElem?_map]
    simp [List.getElem?_range, hi]
  refine ⟨fun h0 => ?_, fun hpos hnz => ?_⟩
  · rw [hbase, if_pos h0]
  · rw [hbase, if_neg (by omega)]
    rw [sub_div, div_self hnz]

/-- Witness for C6 at the spec's worked example `[100, 110, 90]`, index 1. -/
theorem returns_column_witness :
    (pctChange [100, 110, 90])[1]? =
      some (some ([(100 : ℚ), 110, 90].getD 1 0 / [(100 : ℚ), 110, 90].getD 0 0 - 1)) :=
  (returns_column_spec [100, 110, 90] 1 (by decide)).2 (by decide) (by decide)

/-- C5: for every window width `k ≥ 1` (in particular 20, 50 and 100),
`SMA_k` is undefined (`NaN`) at every index `i < k − 1` and otherwise is
the arithmetic mean of the `k`-element window `price[i−k+1 .. i]`:
a list `w` of length exactly `k` whose `j`-th entry is `price[i+1−k+j]`,
with the mean `w.sum / k`. -/
theorem sma_rolling_spec (k : ℕ) (xs : List ℚ) (i : ℕ) (hk : 0 < k) (hi : i < xs.length) :
    (i < k - 1 → (rollingMean k xs)[i]? = some none) ∧
    (k - 1 ≤ i → ∃ w : List ℚ,
      (rollingMean k xs)[i]? = some (some (w.sum / (k : ℚ))) ∧
      w.length = k ∧ ∀ j : ℕ, j < k → w[j]? = xs[i + 1 - k + j]?) := by
  have hbase : (rollingMean k xs)[i]? =
      some (if i + 1 < k then none else some (listMean (trailingWindow k i xs))) := by
    unfold rollingMean
    rw [List.getElem?_map]
    simp [List.getElem?_range, hi]
  have hwlen : k ≤ i + 1 → (trailingWindow k i xs).length = k := by
    intro hki
    unfold trailingWindow
    rw [List.length_drop, List.length_take]
    omega
  refine ⟨fun hik => ?_, fun hki => ?_⟩
  · rw [hbase, if_pos (by omega)]
  · have hki' : k ≤ i + 1 := by omega
    refine ⟨trailingWindow k i xs, ?_, hwlen hki', fun j hj => ?_⟩
    · rw [hbase, if_neg (by omega)]
      unfold listMean
      rw [hwlen hki']
    · unfold trailingWindow
      rw [List.getElem?_drop, List.getElem?_take, if_pos (by omega)]

/-- Witness for C5: the 20-window mean at index 19 of a 20-observation
series. -/
theorem sma_rolling_spec_witness :
    ∃ w : List ℚ, (rollingMean 20 prices20)[19]? = some (some (w.sum / (20 : ℚ))) ∧
      w.length = 20 ∧ ∀ j : ℕ, j < 20 → w[j]? = prices20[19 + 1 - 20 + j]? :=
  (sma_rolling_spec 20 prices20 19 (by decide) (by decide)).2 (by decide)

/-- The branch structure of `plot_100_gauge`'s angle rule, zeta-reduced. -/
lemma pointerAngle100_def (c sma std : ℚ) :
    pointerAngle100 c sma std =
      if c ≤ sma - 2 * std then 1
      else if sma + 2 * std ≤ c then 0
      else 1 * (1 - (max (sma - 2 * std) (min (sma + 2 * std) c) - (sma - 2 * std)) /
        ((sma + 2 * std) - (sma - 2 * std))) := rfl

/-- The pointer angle never exceeds π (coefficient 1). -/
lemma pointerAngle100_le_one (c sma std : ℚ) (h : sma - 2 * std < sma + 2 * std) :
    pointerAngle100 c sma std ≤ 1 := by
  rw [pointerAngle100_def]
  split_ifs with h1 h2
  · exact le_refl 1
  · norm_num
  · have hlo : sma - 2 * std ≤ max (sma - 2 * std) (min (sma + 2 * std) c) :=
      le_max_left _ _
    have hr : 0 ≤ (max (sma - 2 * std) (min (sma + 2 * std) c) - (sma - 2 * std)) /
        ((sma + 2 * std) - (sma - 2 * std)) :=
      div_nonneg (by linarith) (by linarith)
    linarith

/-- The pointer angle is never negative. -/
lemma pointerAngle100_nonneg (c sma std : ℚ) (h : sma - 2 * std < sma + 2 * std) :
    0 ≤ pointerAngle100 c sma std := by
  rw [pointerAngle100_def]
  split_ifs with h1 h2
  · norm_num
  · exact le_refl 0
  · have hhi : max (sma - 2 * std) (min (sma + 2 * std) c) ≤ sma + 2 * std :=
      max_le h.le (min_le_left _ _)
    have hr : (max (sma - 2 * std) (min (sma + 2 * std) c) - (sma - 2 * std)) /
        ((sma + 2 * std) - (sma - 2 * std)) ≤ 1 := by
      rw [div_le_one (by linarith)]
      linarith
    linarith

/-- C4: with a non-degenerate band `band_low = sma − 2·std <
band_high = sma + 2·std`, the pointer angle (in units of π) is exactly 1
(angle π) at or below `band_low`, exactly 0 at or above `band_high`,
`1 − (current − band_low)/(band_high − band_low)` strictly inside the
band, and is monotonically non-increasing in the current price. -/
theorem gauge_angle_spec (sma std c₁ c₂ : ℚ)
    (hband : sma - 2 * std < sma + 2 * std) :
    (c₁ ≤ sma - 2 * std → pointerAngle100 c₁ sma std = 1) ∧
    (sma + 2 * std ≤ c₁ → pointerAngle100 c₁ sma std = 0) ∧
    (sma - 2 * std < c₁ → c₁ < sma + 2 * std →
      pointerAngle100 c₁ sma std =
        1 - (c₁ - (sma - 2 * std)) / ((sma + 2 * std) - (sma - 2 * std))) ∧
    (c₁ ≤ c₂ → pointerAngle100 c₂ sma std ≤ pointerAngle100 c₁ sma std) := by
  have hmid : ∀ c : ℚ, sma - 2 * std < c → c < sma + 2 * std →
      pointerAngle100 c sma std =
        1 - (c - (sma - 2 * std)) / ((sma + 2 * std) - (sma - 2 * std)) := by
    intro c hlt1 hlt2
    rw [pointerAngle100_def, if_neg (by linarith), if_neg (by linarith),
      min_eq_right hlt2.le, max_eq_right hlt1.le]
    ring
  refine ⟨fun h1 => ?_, fun h2 => ?_, hmid c₁, fun hc => ?_⟩
  · rw [pointerAngle100_def, if_pos h1]
  · rw [pointerAngle100_def, if_neg (by linarith), if_pos h2]
  · by_cases hA : c₁ ≤ sma - 2 * std
    · have e1 : pointerAngle100 c₁ sma std = 1 := by
        rw [pointerAngle100_def, if_pos hA]
      rw [e1]
      exact pointerAngle100_le_one c₂ sma std hband
    · by_cases hB : sma + 2 * std ≤ c₁
      · have e1 : pointerAngle100 c₁ sma std = 0 := by
          rw [pointerAngle100_def, if_neg hA, if_pos hB]
        have e2 : pointerAngle100 c₂ sma std = 0 := by
          rw [pointerAngle100_def, if_neg (by linarith), if_pos (le_trans hB hc)]
        rw [e1, e2]
      · push_neg at hA hB
        have e1 := hmid c₁ hA hB
        by_cases hC : sma + 2 * std ≤ c₂
        · have e2 : pointerAngle100 c₂ sma std = 0 := by
            rw [pointerAngle100_def, if_neg (by linarith), if_pos hC]
          have hr : (c₁ - (sma - 2 * std)) / ((sma + 2 * std) - (sma - 2 * std)) ≤ 1 := by
            rw [div_le_one (by linarith)]
            linarith
          rw [e1, e2]
          linarith
        · push_neg at hC
          have e2 := hmid c₂ (by linarith) hC
          have hr : (c₁ - (sma - 2 * std)) / ((sma + 2 * std) - (sma - 2 * std)) ≤
              (c₂ - (sma - 2 * std)) / ((sma + 2 * std) - (sma - 2 * std)) :=
            div_le_div_of_nonneg_right (by linarith) (by linarith)
          rw [e1, e2]
          linarith

/-- Witness for C4 at the spec's worked example `sma = 100`, `std = 10`,
comparing currents 100 and 125. -/
theorem gauge_angle_spec_witness :
    ((100 : ℚ) ≤ 100 - 2 * 10 → pointerAngle100 100 100 10 = 1) ∧
    ((100 : ℚ) + 2 * 10 ≤ 100 → pointerAngle100 100 100 10 = 0) ∧
    ((100 : ℚ) - 2 * 10 < 100 → (100 : ℚ) < 100 + 2 * 10 →
      pointerAngle100 100 100 10 =
        1 - (100 - ((100 : ℚ) - 2 * 10)) / (((100 : ℚ) + 2 * 10) - (100 - 2 * 10))) ∧
    ((100 : ℚ) ≤ 125 → pointerAngle100 125 100 10 ≤ pointerAngle100 100 100 10) :=
  gauge_angle_spec 100 10 100 125 (by norm_num)

/-- A sum of squared deviations is zero only when every element equals the
reference point. -/
lemma sum_sq_dev_zero {m : ℚ} : ∀ {xs : List ℚ},
    ((xs.map (fun x => (x - m) ^ 2)).sum = 0) → ∀ x ∈ xs, x = m := by
  intro xs
  induction xs with
  | nil =>
    intro _ x hx
    cases hx
  | cons a tl ih =>
    intro hsum x hx
    rw [List.map_cons, List.sum_cons] at hsum
    have hterm : 0 ≤ (a - m) ^ 2 := sq_nonneg _
    have hrest : 0 ≤ (tl.map (fun x => (x - m) ^ 2)).sum := by
      apply List.sum_nonneg
      intro y hy
      obtain ⟨z, _, rfl⟩ := List.mem_map.mp hy
      exact sq_nonneg _
    rcases List.mem_cons.mp hx with rfl | hx
    · have h1 : (x - m) ^ 2 = 0 := by linarith
      have := pow_eq_zero_iff (two_ne_zero) |>.mp h1
      linarith [sub_eq_zero.mp this]
    · exact ih (by linarith) x hx

/-- A window with zero sample variance (at least two observations) is
constant at its mean. -/
lemma sampleVar_zero_all_mean (xs : List ℚ) (h2 : 2 ≤ xs.length)
    (hv : sampleVar xs = 0) : ∀ x ∈ xs, x = listMean xs := by
  unfold sampleVar at hv
  have hden : ((xs.length : ℚ) - 1) ≠ 0 := by
    have : (2 : ℚ) ≤ (xs.length : ℚ) := by exact_mod_cast h2
    linarith
  rcases div_eq_zero_iff.mp hv with hv | hv
  · exact sum_sq_dev_zero hv
  · exact absurd hv hden

/-- Counterexample to C1: on the degenerate window `[5, 5]` (sample
variance 0, so `band_high = band_low`), the gauge resolves the pointer
angle to π (coefficient 1), not to the neutral π/2 the claim requires. -/
theorem degenerate_window_not_neutral :
    sampleVar [(5 : ℚ), 5] = 0 ∧ listMean [(5 : ℚ), 5] = 5 ∧
    pointerAngle100 5 5 0 = 1 ∧ pointerAngle100 5 5 0 ≠ 1 / 2 := by
  refine ⟨by norm_num [sampleVar, listMean], by norm_num [listMean], ?_, ?_⟩
  · rw [pointerAngle100_def]
    norm_num
  · rw [pointerAngle100_def]
    norm_num

/-- C1 (amended): on a zero-sample-standard-deviation window (variance 0,
hence `std = 0` and `band_high = band_low`), the last price equals the
window mean, so the gauge's first branch fires and the computation
resolves to the fixed angle π (coefficient 1) — no division fault is
propagated, but the result is the oversold extreme, not a neutral π/2. -/
theorem degenerate_window_gauge_pi (w : List ℚ) (hne : w ≠ []) (h2 : 2 ≤ w.length)
    (hv : sampleVar w = 0) :
    pointerAngle100 (w.getLast hne) (listMean w) 0 = 1 := by
  have hcur : w.getLast hne = listMean w :=
    sampleVar_zero_all_mean w h2 hv _ (List.getLast_mem hne)
  rw [pointerAngle100_def, hcur, if_pos (by linarith)]

/-- Witness for C1's amended statement on the concrete window `[5, 5]`. -/
theorem degenerate_window_gauge_pi_witness :
    pointerAngle100 (([(5 : ℚ), 5]).getLast (by simp)) (listMean [(5 : ℚ), 5]) 0 = 1 :=
  degenerate_window_gauge_pi [(5 : ℚ), 5] (by simp) (by norm_num)
    (by norm_num [sampleVar, listMean])

/-- When no cached name matches the selection, the loop in `get_data`
falls through: the payload is `None` and the store is untouched. -/
lemma get_data_not_found (store : Store) (sel : String) :
    (∀ e ∈ store, e.1 ≠ sel) → get_data store sel = (none, store) := by
  induction store with
  | nil => intro _; rfl
  | cons e rest ih =>
    intro habs
    obtain ⟨name, t⟩ := e
    have hname : name ≠ sel := habs (name, t) (List.mem_cons_self _ _)
    have hrest := ih fun x hx => habs x (List.mem_cons_of_mem _ hx)
    simp [get_data, hname, hrest]

/-- Counterexample to C3: selecting a series name absent from the loaded
mapping makes the derivation yield no payload (that half of the claim
holds), but every downstream composer then raises an exception
(missing-column `ValueError` / empty-frame `IndexError`) instead of
surfacing an empty or placeholder chart. -/
theorem missing_series_composer_fault_cex :
    (get_data rawStore "wti-week_csv").1 = none ∧
    plot_line_chart (get_data rawStore "wti-week_csv").1 [] =
      .error "ValueError: value of x is not the name of a column in data_frame" ∧
    update_histogram (get_data rawStore "wti-week_csv").1 250 "250" =
      .error "ValueError: value of x is not the name of a column in data_frame" ∧
    plot_100_gauge (get_data rawStore "wti-week_csv").1 =
      .error "IndexError: single positional indexer is out-of-bounds" := by
  decide

/-- C3 (amended): for a selected name not in the loaded mapping, the
derivation step produces no payload (`None`) and leaves the store intact —
so recomputation itself does not crash — but each downstream composer,
handed the missing payload, raises an error (the empty column-less frame
`pd.DataFrame.from_dict(None)` yields makes `px.line`/`px.histogram` fail
on their named columns and `iloc[-1]` fail on the empty frame) rather
than producing an empty/placeholder chart. -/
theorem missing_series_none_but_composers_error (store : Store) (sel : String)
    (habs : ∀ e ∈ store, e.1 ≠ sel) (mas : List String) (p : ℕ) (lbl : String) :
    (get_data store sel).1 = none ∧ (get_data store sel).2 = store ∧
    (∃ e, plot_line_chart (get_data store sel).1 mas = .error e) ∧
    (∃ e, update_histogram (get_data store sel).1 p lbl = .error e) ∧
    (∃ e, plot_20_gauge (get_data store sel).1 = .error e) ∧
    (∃ e, plot_50_gauge (get_data store sel).1 = .error e) ∧
    (∃ e, plot_100_gauge (get_data store sel).1 = .error e) := by
  have hnone := get_data_not_found store sel habs
  rw [hnone]
  exact ⟨rfl, rfl, ⟨_, rfl⟩, ⟨_, rfl⟩, ⟨_, rfl⟩, ⟨_, rfl⟩, ⟨_, rfl⟩⟩

/-- Witness for C3's amended statement at a concrete store and selection. -/
theorem missing_series_witness :
    (get_data rawStore "wti-week_csv").1 = none ∧
    (get_data rawStore "wti-week_csv").2 = rawStore ∧
    (∃ e, plot_line_chart (get_data rawStore "wti-week_csv").1 ["SMA20"] = .error e) ∧
    (∃ e, update_histogram (get_data rawStore "wti-week_csv").1 250 "250" = .error e) ∧
    (∃ e, plot_20_gauge (get_data rawStore "wti-week_csv").1 = .error e) ∧
    (∃ e, plot_50_gauge (get_data rawStore "wti-week_csv").1 = .error e) ∧
    (∃ e, plot_100_gauge (get_data rawStore "wti-week_csv").1 = .error e) :=
  missing_series_none_but_composers_error rawStore "wti-week_csv" (by decide) ["SMA20"] 250 "250"

/-- The `Date` column of a tailed frame is the trailing rows of the
original `Date` column. -/
lemma tail_Date (t : Table) (p : ℕ) :
    (t.tail p).Date = t.Date.drop (t.Date.length - p) := rfl

/-- The `Price` column of a tailed frame is the trailing rows of the
original `Price` column. -/
lemma tail_Price (t : Table) (p : ℕ) :
    (t.tail p).Price = t.Price.drop (t.Date.length - p) := rfl

/-- The `Returns` column of a tailed frame is the trailing rows of the
original `Returns` column. -/
lemma tail_Returns (t : Table) (p : ℕ) :
    (t.tail p).Returns = t.Returns.map (fun l => l.drop (t.Date.length - p)) := rfl

/-- Dropping zero rows from an optional column is the identity. -/
lemma option_map_drop_zero (o : Option (List (Option ℚ))) :
    o.map (fun l => l.drop 0) = o := by
  cases o <;> simp

/-- `tail` with a period at least the frame length returns the whole
frame. -/
lemma tail_full (t : Table) (p : ℕ) (hle : t.Date.length ≤ p) : t.tail p = t := by
  have hcut : t.Date.length - p = 0 := by omega
  simp [Table.tail, hcut, option_map_drop_zero]

/-- C8: for every frame carrying a `Returns` column and every period, the
histogram composer succeeds (no error) and bins exactly the trailing
`period` rows taken from the end of the ordered sequence: its row frame is
a suffix of the original of length `min period length`, and when the
period is at least the series length the full series is used. -/
theorem histogram_trailing_period (t : Table) (p : ℕ) (lbl : String)
    (hret : t.Returns.isSome) :
    ∃ fig, update_histogram (some t) p lbl = Except.ok fig ∧
      fig.rows = t.tail p ∧
      fig.rows.Date <:+ t.Date ∧
      fig.rows.Price <:+ t.Price ∧
      fig.rows.Date.length = min p t.Date.length ∧
      (∃ r, t.Returns = some r ∧
        fig.rows.Returns = some (r.drop (t.Date.length - p))) ∧
      (t.Date.length ≤ p → fig.rows = t) := by
  obtain ⟨r, hr⟩ := Option.isSome_iff_exists.mp hret
  have htr : (t.tail p).Returns = some (r.drop (t.Date.length - p)) := by
    rw [tail_Returns, hr]
    rfl
  refine ⟨{ rows := t.tail p, xcol := "Returns", nbins := 15,
            title := "Returns over the last " ++ lbl ++ " periods" },
    ?_, rfl, ?_, ?_, ?_, ⟨r, hr, htr⟩, fun hle => tail_full t p hle⟩
  · unfold update_histogram
    dsimp only
    rw [htr]
  · rw [tail_Date]
    exact List.drop_suffix _ _
  · rw [tail_Price]
    exact List.drop_suffix _ _
  · rw [tail_Date, List.length_drop]
    omega

/-- Witness for C8 at a concrete frame, with the period exceeding the
series length. -/
theorem histogram_trailing_period_witness :
    ∃ fig, update_histogram (some smallDerived) 250 "250" = Except.ok fig ∧
      fig.rows = smallDerived.tail 250 ∧
      fig.rows.Date <:+ smallDerived.Date ∧
      fig.rows.Price <:+ smallDerived.Price ∧
      fig.rows.Date.length = min 250 smallDerived.Date.length ∧
      (∃ r, smallDerived.Returns = some r ∧
        fig.rows.Returns = some (r.drop (smallDerived.Date.length - 250))) ∧
      (smallDerived.Date.length ≤ 250 → fig.rows = smallDerived) :=
  histogram_trailing_period smallDerived 250 "250" (by decide)
